import Mathlib

/-!
Shallow embedding of `monotonic.py` (the `monotonic` package, file
`src/monotonic.py`): a `monotonic()` clock bound per platform at module
load.  Python floats are idealised as exact rationals.  The fallback
code is Python 2 code (it uses the `cmp` builtin), so Python 2
semantics are used where the source relies on them: `/` on two ints is
floor division, `cmp` on lists is lexicographic.
-/

set_option autoImplicit false

/-- Membership in the regex character class `[\d.]` used by
`get_os_release` (in a Python 2 `str` pattern, `\d` is `[0-9]`). -/
def isVerChar (c : Char) : Bool := c.isDigit || c == '.'

/-- Models `re.match('[\d.]+', release)` followed by `.group(0)`
(line 55): `some` of the maximal (greedy) leading run of digits and
dots when the first character is in the class, otherwise `none`
(in Python the match object is `None` and `.group(0)` raises
`AttributeError`). -/
def get_os_release (release : String) : Option String :=
  let tok := release.data.takeWhile isVerChar
  if tok.isEmpty then none else some (String.mk tok)

/-- Consumes the rest of a reversed `\.0+` group: zero or more further
zeros, then the dot, returning the remainder of the reversed list. -/
def stripGroupRest : List Char → Option (List Char)
  | '0' :: cs => stripGroupRest cs
  | '.' :: cs => some cs
  | _ => none

/-- Tries to remove one `\.0+` group from the front of the reversed
character list: a nonempty run of zeros followed by a dot. -/
def stripGroup : List Char → Option (List Char)
  | '0' :: cs => stripGroupRest cs
  | _ => none

/-- Fuel-bounded loop removing reversed `\.0+` groups until none is
left.  Each removed group consumes at least two characters, so fuel
equal to the list length always suffices. -/
def stripRevLoop : Nat → List Char → List Char
  | 0, l => l
  | n + 1, l =>
    match stripGroup l with
    | some rest => stripRevLoop n rest
    | none => l

/-- Models `re.sub(r'(\.0+)*$', '', v)` (line 61): remove the maximal
trailing concatenation of groups, each a literal dot followed by one or
more zeros ("trailing zero components"). -/
def stripZeroSuffix (v : String) : String :=
  String.mk ((stripRevLoop v.data.length v.data.reverse).reverse)

/-- Models Python `str.split('.')`: split the character list at every
dot, keeping empty segments (`"".split('.') == ['']`). -/
def splitDots : List Char → List (List Char)
  | [] => [[]]
  | c :: cs =>
    if c == '.' then [] :: splitDots cs
    else
      match splitDots cs with
      | [] => [[c]]
      | g :: gs => (c :: g) :: gs

/-- Numeric value of a decimal digit character. -/
def digitVal (c : Char) : Nat := c.toNat - 48

/-- Models Python `int(s)` on the component strings produced here:
`some` of the decimal value for a nonempty string of digits, `none`
where `int` would raise `ValueError` (empty or non-digit components;
signed or whitespace-padded forms never arise from `[\d.]` tokens or
the literal thresholds passed in the source). -/
def parseNat : List Char → Option Nat
  | [] => none
  | l => if l.all Char.isDigit then some (l.foldl (fun acc c => 10 * acc + digitVal c) 0) else none

/-- Models `map(int, components)` (Python 2 `map` returns a list, and
`int` raising on any component aborts the whole call). -/
def mapInt : List (List Char) → Option (List Int)
  | [] => some []
  | g :: gs =>
    match parseNat g, mapInt gs with
    | some n, some ns => some ((n : Int) :: ns)
    | _, _ => none

/-- Models the inner `normalize` of `compare_versions` (lines 60-61):
`map(int, re.sub(r'(\.0+)*$', '', v).split('.'))`.  (Named
`normalizeVersion` because Mathlib already takes `normalize`.) -/
def normalizeVersion (v : String) : Option (List Int) :=
  mapInt (splitDots (stripZeroSuffix v).data)

/-- Python 2 `cmp` on two lists of ints: lexicographic, element
comparison numeric, a strict prefix compares as smaller. -/
def cmpList : List Int → List Int → Int
  | [], [] => 0
  | [], _ :: _ => -1
  | _ :: _, [] => 1
  | a :: as, b :: bs => if a < b then -1 else if b < a then 1 else cmpList as bs

/-- Models `compare_versions(v1, v2)` (lines 58-62):
`cmp(normalize(v1), normalize(v2))`, with `none` where `normalize`
would raise. -/
def compare_versions (v1 v2 : String) : Option Int :=
  match normalizeVersion v1, normalizeVersion v2 with
  | some n1, some n2 => some (cmpList n1 n2)
  | _, _ => none

/-- Models the Linux clock-id selection (lines 124-128):
`CLOCK_MONOTONIC_RAW = 4` when
`compare_versions(get_os_release(), '2.6.28') > 0`, else
`CLOCK_MONOTONIC = 1`; `none` when `get_os_release` or
`compare_versions` raises. -/
def linuxClockId (release : String) : Option Nat :=
  match get_os_release release with
  | none => none
  | some tok =>
    match compare_versions tok "2.6.28" with
    | none => none
    | some c => some (if 0 < c then 4 else 1)

/-- Models `ticks_per_second = timebase.numer / timebase.denom * 1.0e9`
(line 84).  `numer` and `denom` are the `c_uint32` fields of the
`mach_timebase_info_data_t` queried once at initialization; in the
Python 2 source `timebase.numer / timebase.denom` is integer floor
division, and only the final `* 1.0e9` produces a float. -/
def ticks_per_second (numer denom : Nat) : ℚ :=
  ((numer / denom : Nat) : ℚ) * 10 ^ 9

/-- Models the darwin `monotonic()` (lines 86-88):
`mach_absolute_time() / ticks_per_second`, where `mach_absolute_time`
has `restype = c_uint64`, so the native value is read as an unsigned
64-bit integer. -/
def monotonic_darwin (numer denom t : Nat) : ℚ :=
  ((t % 2 ^ 64 : Nat) : ℚ) / ticks_per_second numer denom

/-- Written from the words of the spec, for comparison with
`monotonic_darwin`: "Convert the raw result into fractional seconds
... `ticks * numerator / denominator / 1e9` for the timebase path",
with real (not floor) division throughout. -/
def spec_darwin_seconds (numer denom t : Nat) : ℚ :=
  (t : ℚ) * (numer : ℚ) / (denom : ℚ) / 10 ^ 9

/-- Models the win32 and cygwin `monotonic()` (lines 95-97 and
105-107): `GetTickCount64() / 1000.0`, where `GetTickCount64` has
`restype = c_ulonglong`, so the native value is read as an unsigned
64-bit integer. -/
def monotonic_tick (t : Nat) : ℚ :=
  ((t % 2 ^ 64 : Nat) : ℚ) / 1000

/-- Models the `timespec` structure (lines 117-120): two `c_long`
fields, seconds and nanoseconds. -/
structure timespec where
  tv_sec : Int
  tv_nsec : Int
deriving DecidableEq

/-- Models the return expression of the POSIX `monotonic()` (line 141):
`ts.tv_sec + ts.tv_nsec / 1.0e9`. -/
def timespecSeconds (ts : timespec) : ℚ :=
  (ts.tv_sec : ℚ) + (ts.tv_nsec : ℚ) / 10 ^ 9

/-- Models the POSIX `monotonic()` (lines 136-141) as a function of the
outcome of the native `clock_gettime` call: `status` is its return
value, `errno` the thread error number after the call, `ts` the
timespec it filled in, and `strerror` the platform's `os.strerror`.
A truthy (nonzero) status raises `OSError(errno, os.strerror(errno))`;
a zero status returns `ts.tv_sec + ts.tv_nsec / 1.0e9`. -/
def monotonic_posix (strerror : Int → String) (status errno : Int)
    (ts : timespec) : Except (Int × String) ℚ :=
  if status ≠ 0 then .error (errno, strerror errno)
  else .ok (timespecSeconds ts)

/-- Models the effect of `clock_gettime(CLOCK_MONOTONIC, pointer(ts))`
(line 138) on the module-level buffer `ts = timespec()` (line 122),
which is shared by every call to the POSIX `monotonic()`: on a zero
status the kernel overwrites the buffer with the new reading `newTs`;
on a failure the buffer is left as it was. -/
def clock_gettime_step (newTs : timespec) (status : Int) (st : timespec) :
    Int × timespec :=
  if status = 0 then (0, newTs) else (status, st)

/-- Models one call of the POSIX `monotonic()` (lines 136-141) with the
shared module-level `ts` buffer made explicit: the native call writes
into the buffer, and the returned value is read back from the buffer
the call just wrote.  Returns the call's result together with the
buffer state the call leaves behind. -/
def monotonicPosixCall (strerror : Int → String) (newTs : timespec)
    (status errno : Int) (st : timespec) :
    (Except (Int × String) ℚ) × timespec :=
  let r := clock_gettime_step newTs status st
  if r.1 ≠ 0 then (.error (errno, strerror errno), r.2)
  else (.ok (timespecSeconds r.2), r.2)

/-- Models Python `str.startswith(pre)` on the strings compared by the
platform dispatch. -/
def startsWithB (s pre : String) : Bool :=
  pre.data.isPrefixOf s.data

/-- Models the Python substring test `pat in s` (used for
`'bsd' in sys.platform`, line 133). -/
def listInfixB (pat : List Char) : List Char → Bool
  | [] => pat.isEmpty
  | c :: cs => pat.isPrefixOf (c :: cs) || listInfixB pat cs

/-- String version of `listInfixB`. -/
def strContains (s pat : String) : Bool :=
  listInfixB pat.data s.data

/-- Models the sanity check condition `monotonic() - monotonic() > 0`
(line 144); Python evaluates the left call first, so `first` is the
earlier reading.  `true` means the check raises
`ValueError('monotonic() is not monotonic!')`. -/
def sanityFails (first second : ℚ) : Bool :=
  decide (first - second > 0)

/-- Written from the words of the spec, for comparison with
`sanityFails`: the spec says the resolver "asserts
`second_reading - first_reading <= 0` is false", so under the spec's
wording the check fails exactly when `second - first ≤ 0` holds. -/
def specSanityFails (first second : ℚ) : Bool :=
  decide (second - first ≤ 0)

/-- The host-dependent inputs the initialization code consumes:
`sys.platform`, `platform.release()`, whether the branch's dynamic
library loading and symbol lookup succeed, the timebase pair (darwin),
the two native readings taken by the sanity check (tick counts for the
darwin/win32/cygwin paths, `clock_gettime` statuses and timespecs for
the POSIX path). -/
structure Env where
  sys_platform : String
  platform_release : String
  load_ok : Bool
  numer : Nat
  denom : Nat
  tick1 : Nat
  tick2 : Nat
  status1 : Int
  status2 : Int
  ts1 : timespec
  ts2 : timespec

/-- The clock the resolver ends up bound to. -/
inductive ClockKind
  | darwinMach (numer denom : Nat)
  | tickCount
  | posixClock (clockId : Nat)
deriving DecidableEq

/-- The outcome of importing the module: either a bound clock or the
single `RuntimeError('no suitable implementation for this system')`
that line 148 turns every initialization-time exception into. -/
inductive InitResult
  | ok (clock : ClockKind)
  | runtimeError (msg : String)
deriving DecidableEq

/-- The two sanity-check readings on the POSIX path: each call raises
`OSError` on a nonzero `clock_gettime` status (first call first), else
converts the timespec; the clock id `cid` is the one the dispatch
assigned. -/
def posixRead (env : Env) (cid : Nat) :
    Except String (ClockKind × ℚ × ℚ) :=
  if env.status1 ≠ 0 then .error "OSError"
  else if env.status2 ≠ 0 then .error "OSError"
  else .ok (.posixClock cid, timespecSeconds env.ts1, timespecSeconds env.ts2)

/-- Models the body of the `try` block (lines 68-141) together with the
two `monotonic()` calls of the sanity check (line 144), up to but not
including the comparison itself: platform dispatch, binding, and the
two readings.  Any exception on the way (failed library load or symbol
lookup, `ZeroDivisionError` when `ticks_per_second` is `0.0`,
`AttributeError`/`ValueError` from the Linux version gate, `NameError`
when no branch assigned `CLOCK_MONOTONIC`, `OSError` from
`clock_gettime`) is an `error`. -/
def bindAndRead (env : Env) : Except String (ClockKind × ℚ × ℚ) :=
  if env.sys_platform = "darwin" then
    if env.load_ok then
      if ticks_per_second env.numer env.denom = 0 then .error "ZeroDivisionError"
      else .ok (.darwinMach env.numer env.denom,
                monotonic_darwin env.numer env.denom env.tick1,
                monotonic_darwin env.numer env.denom env.tick2)
    else .error "BindingFailure"
  else if startsWithB env.sys_platform "win32" then
    if env.load_ok then
      .ok (.tickCount, monotonic_tick env.tick1, monotonic_tick env.tick2)
    else .error "BindingFailure"
  else if startsWithB env.sys_platform "cygwin" then
    if env.load_ok then
      .ok (.tickCount, monotonic_tick env.tick1, monotonic_tick env.tick2)
    else .error "BindingFailure"
  else
    if env.load_ok then
      if startsWithB env.sys_platform "linux" then
        match linuxClockId env.platform_release with
        | none => .error "VersionGateFailure"
        | some cid => posixRead env cid
      else if startsWithB env.sys_platform "freebsd" then posixRead env 4
      else if startsWithB env.sys_platform "sunos5" then posixRead env 4
      else if strContains env.sys_platform "bsd" then posixRead env 3
      else .error "NameError"
    else .error "BindingFailure"

/-- Models the whole guarded initialization (lines 65-148): run the
`try` block; if it raised, or if the sanity comparison
`monotonic() - monotonic() > 0` holds, the `except Exception` handler
raises the one fatal
`RuntimeError('no suitable implementation for this system')`. -/
def init (env : Env) : InitResult :=
  match bindAndRead env with
  | .error _ => .runtimeError "no suitable implementation for this system"
  | .ok (c, r1, r2) =>
    if sanityFails r1 r2 then
      .runtimeError "no suitable implementation for this system"
    else .ok c


/-- C1: the claim says that on the Apple path `monotonic()` returns
`t * numer / denom / 1e9` for every tick value `t`.  The code instead
divides the tick count by `numer / denom * 1.0e9`, which inverts the
documented nanoseconds-per-tick factor (and floor-divides it first):
at the failing input `numer = 2`, `denom = 1`, `t = 1` the code yields
`1 / 2e9` where the claimed formula yields `2 / 1e9`.  (The two agree
exactly when `numer = denom`, the usual value on the Intel Macs of the
module's era, which is how the slip survives.) -/
theorem c1_darwin_conversion_diverges :
    monotonic_darwin 2 1 1 = 1 / (2 * 10 ^ 9) ∧
    spec_darwin_seconds 2 1 1 = 2 / 10 ^ 9 ∧
    monotonic_darwin 2 1 1 ≠ spec_darwin_seconds 2 1 1 := by
  norm_num [monotonic_darwin, spec_darwin_seconds, ticks_per_second]

/-- Witness for `c1_darwin_conversion_diverges`: the code's value at
the failing input, read off the theorem. -/
theorem c1_darwin_conversion_diverges_witness :
    monotonic_darwin 2 1 1 = 1 / (2 * 10 ^ 9) :=
  c1_darwin_conversion_diverges.1

/-- C2: `compare_versions` is a numeric dotted-version comparison:
`compare("4.15.0", "4.15") = 0` (trailing-zero stripping),
`compare("4.4.0", "2.6.28") > 0`, `compare("2.6.28", "2.6.28") = 0`,
and `compare("2.6.5", "2.6.28") < 0` (numeric, not lexical, component
comparison). -/
theorem c2_compare_versions_examples :
    compare_versions "4.15.0" "4.15" = some 0 ∧
    (∃ c, compare_versions "4.4.0" "2.6.28" = some c ∧ 0 < c) ∧
    compare_versions "2.6.28" "2.6.28" = some 0 ∧
    (∃ c, compare_versions "2.6.5" "2.6.28" = some c ∧ c < 0) :=
  ⟨by decide, ⟨1, by decide, by norm_num⟩, by decide, ⟨-1, by decide, by norm_num⟩⟩

/-- C3: on Linux the clock id comes from the leading numeric dotted
token of the kernel release compared against the threshold "2.6.28":
strictly greater selects `CLOCK_MONOTONIC_RAW = 4`, otherwise
`CLOCK_MONOTONIC = 1`; release "5.10.0-amd64" selects the raw variant
and "2.4.20" the standard one. -/
theorem c3_linux_clock_selection :
    linuxClockId "5.10.0-amd64" = some 4 ∧
    linuxClockId "2.4.20" = some 1 ∧
    ∀ release tok c, get_os_release release = some tok →
      compare_versions tok "2.6.28" = some c →
      linuxClockId release = some (if 0 < c then 4 else 1) := by
  refine ⟨by decide, by decide, ?_⟩
  intro release tok c h1 h2
  simp [linuxClockId, h1, h2]

/-- Witness for `c3_linux_clock_selection` at release "5.10.0-amd64",
whose leading token "5.10.0" compares as `1 > 0` against "2.6.28". -/
theorem c3_linux_clock_selection_witness :
    linuxClockId "5.10.0-amd64" = some (if 0 < (1 : Int) then 4 else 1) :=
  c3_linux_clock_selection.2.2 "5.10.0-amd64" "5.10.0" 1 (by decide) (by decide)

/-- C4 counterexample: the claim repeats the spec's wording that the
self-test "asserts `second_reading - first_reading <= 0` is false",
but under that formula two equal readings would fail the check, while
the code's condition `monotonic() - monotonic() > 0` passes them --
and the second reading is not strictly less than the first.  At the
concrete pair of equal readings `(1, 1)` the spec-worded check fails
while the code's check passes. -/
theorem c4_sanity_check_counterexample :
    specSanityFails 1 1 = true ∧ sanityFails 1 1 = false ∧ ¬((1 : ℚ) < 1) := by
  refine ⟨?_, ?_, by norm_num⟩
  · norm_num [specSanityFails]
  · norm_num [sanityFails]

/-- C4 amended: the self-test fails exactly when the second reading is
strictly less than the first, and two equal readings pass; the code's
condition is `first_reading - second_reading > 0`, i.e. it asserts
that `second_reading - first_reading < 0` is false (strict, not the
spec's `<= 0`). -/
theorem c4_sanity_check_amended :
    (∀ first second : ℚ, sanityFails first second = true ↔ second < first) ∧
    (∀ x : ℚ, sanityFails x x = false) := by
  constructor
  · intro f s
    simp [sanityFails, sub_pos]
  · intro x
    simp [sanityFails]

/-- Witness for `c4_sanity_check_amended`: readings 2 then 1 fail the
self-test. -/
theorem c4_sanity_check_amended_witness : sanityFails 2 1 = true :=
  (c4_sanity_check_amended.1 2 1).mpr (by norm_num)

/-- C5: the POSIX `monotonic()` raises `OSError(errno, strerror(errno))`
if and only if the native `clock_gettime` returned a nonzero status,
and on a zero status returns `tv_sec + tv_nsec / 1e9`; the failure is
decided afresh on every call and the error is returned to the caller,
never swallowed. -/
theorem c5_posix_error_iff (strerror : Int → String) (status errno : Int)
    (ts : timespec) :
    (status ≠ 0 → monotonic_posix strerror status errno ts =
      .error (errno, strerror errno)) ∧
    (status = 0 → monotonic_posix strerror status errno ts =
      .ok ((ts.tv_sec : ℚ) + (ts.tv_nsec : ℚ) / 10 ^ 9)) ∧
    (∀ q, monotonic_posix strerror status errno ts = .ok q → status = 0) ∧
    (∀ e, monotonic_posix strerror status errno ts = .error e →
      status ≠ 0 ∧ e = (errno, strerror errno)) := by
  by_cases h : status = 0 <;>
    simp [monotonic_posix, timespecSeconds, h]

/-- Witness for `c5_posix_error_iff`: a call with status 1 and errno 22
raises the error pair. -/
theorem c5_posix_error_iff_witness :
    monotonic_posix (fun _ => "") 1 22 ⟨0, 0⟩ = .error (22, "") :=
  (c5_posix_error_iff (fun _ => "") 1 22 ⟨0, 0⟩).1 (by norm_num)

/-- C8: on the tick-count path `monotonic()` returns the 64-bit
millisecond tick count divided by 1000.0; the native return is read as
an unsigned 64-bit value, so every tick count below `2 ^ 64` passes
through untruncated. -/
theorem c8_tick_conversion (t : Nat) (h : t < 2 ^ 64) :
    monotonic_tick t = (t : ℚ) / 1000 := by
  unfold monotonic_tick
  rw [Nat.mod_eq_of_lt h]

/-- Witness for `c8_tick_conversion` at 1500 ticks. -/
theorem c8_tick_conversion_witness : monotonic_tick 1500 = (1500 : ℚ) / 1000 :=
  c8_tick_conversion 1500 (by norm_num)

/-- The darwin conversion is non-decreasing in the tick count whenever
the scale factor it divides by is positive. -/
theorem monotonic_darwin_mono {numer denom : Nat}
    (hpos : 0 < ticks_per_second numer denom)
    {t1 t2 : Nat} (h12 : t1 ≤ t2) (h2 : t2 < 2 ^ 64) :
    monotonic_darwin numer denom t1 ≤ monotonic_darwin numer denom t2 := by
  unfold monotonic_darwin
  rw [Nat.mod_eq_of_lt (lt_of_le_of_lt h12 h2), Nat.mod_eq_of_lt h2]
  exact (div_le_div_iff_of_pos_right hpos).mpr (by exact_mod_cast h12)

/-- The tick-count conversion is non-decreasing in the tick count. -/
theorem monotonic_tick_mono {t1 t2 : Nat} (h12 : t1 ≤ t2) (h2 : t2 < 2 ^ 64) :
    monotonic_tick t1 ≤ monotonic_tick t2 := by
  unfold monotonic_tick
  rw [Nat.mod_eq_of_lt (lt_of_le_of_lt h12 h2), Nat.mod_eq_of_lt h2]
  exact (div_le_div_iff_of_pos_right (by norm_num)).mpr (by exact_mod_cast h12)

/-- The POSIX conversion is non-decreasing in the timespec, ordered
lexicographically, for normalized nanosecond fields. -/
theorem timespecSeconds_mono {a b : timespec}
    (ha1 : a.tv_nsec < 10 ^ 9) (hb0 : 0 ≤ b.tv_nsec)
    (hord : a.tv_sec < b.tv_sec ∨ (a.tv_sec = b.tv_sec ∧ a.tv_nsec ≤ b.tv_nsec)) :
    timespecSeconds a ≤ timespecSeconds b := by
  unfold timespecSeconds
  rcases hord with h | ⟨h, hn⟩
  · have h1 : (a.tv_nsec : ℚ) / 10 ^ 9 < 1 := by
      rw [div_lt_one (by norm_num)]
      exact_mod_cast ha1
    have h2 : (0 : ℚ) ≤ (b.tv_nsec : ℚ) / 10 ^ 9 :=
      div_nonneg (by exact_mod_cast hb0) (by norm_num)
    have h3 : (a.tv_sec : ℚ) + 1 ≤ (b.tv_sec : ℚ) := by
      exact_mod_cast Int.add_one_le_iff.mpr h
    linarith
  · rw [h]
    have hd : (a.tv_nsec : ℚ) / 10 ^ 9 ≤ (b.tv_nsec : ℚ) / 10 ^ 9 :=
      (div_le_div_iff_of_pos_right (by norm_num)).mpr (by exact_mod_cast hn)
    linarith

/-- C7: each platform path's conversion is monotone non-decreasing in
the native reading (tick counts on the darwin and tick-count paths,
both read as unsigned 64-bit values; lexicographically ordered
`(tv_sec, tv_nsec)` pairs with a normalized nanosecond field on the
POSIX path), and therefore a non-decreasing native sequence produces a
non-decreasing sequence of returned values across arbitrarily many
calls. -/
theorem c7_conversions_monotone :
    (∀ numer denom t1 t2 : Nat, 0 < ticks_per_second numer denom →
      t1 ≤ t2 → t2 < 2 ^ 64 →
      monotonic_darwin numer denom t1 ≤ monotonic_darwin numer denom t2) ∧
    (∀ t1 t2 : Nat, t1 ≤ t2 → t2 < 2 ^ 64 →
      monotonic_tick t1 ≤ monotonic_tick t2) ∧
    (∀ a b : timespec, 0 ≤ a.tv_nsec → a.tv_nsec < 10 ^ 9 →
      0 ≤ b.tv_nsec → b.tv_nsec < 10 ^ 9 →
      (a.tv_sec < b.tv_sec ∨ (a.tv_sec = b.tv_sec ∧ a.tv_nsec ≤ b.tv_nsec)) →
      timespecSeconds a ≤ timespecSeconds b) ∧
    (∀ (numer denom : Nat) (u : Nat → Nat), 0 < ticks_per_second numer denom →
      (∀ i, u i ≤ u (i + 1)) → (∀ i, u i < 2 ^ 64) →
      ∀ i j, i ≤ j →
        monotonic_darwin numer denom (u i) ≤ monotonic_darwin numer denom (u j)) ∧
    (∀ u : Nat → Nat, (∀ i, u i ≤ u (i + 1)) → (∀ i, u i < 2 ^ 64) →
      ∀ i j, i ≤ j → monotonic_tick (u i) ≤ monotonic_tick (u j)) ∧
    (∀ u : Nat → timespec,
      (∀ i, 0 ≤ (u i).tv_nsec ∧ (u i).tv_nsec < 10 ^ 9) →
      (∀ i, (u i).tv_sec < (u (i + 1)).tv_sec ∨
        ((u i).tv_sec = (u (i + 1)).tv_sec ∧ (u i).tv_nsec ≤ (u (i + 1)).tv_nsec)) →
      ∀ i j, i ≤ j → timespecSeconds (u i) ≤ timespecSeconds (u j)) := by
  refine ⟨?_, ?_, ?_, ?_, ?_, ?_⟩
  · intro numer denom t1 t2 hpos h12 h2
    exact monotonic_darwin_mono hpos h12 h2
  · intro t1 t2 h12 h2
    exact monotonic_tick_mono h12 h2
  · intro a b _ ha1 hb0 _ hord
    exact timespecSeconds_mono ha1 hb0 hord
  · intro numer denom u hpos hstep hbound i j hij
    induction j, hij using Nat.le_induction with
    | base => exact le_refl _
    | succ n _ ih =>
      exact le_trans ih (monotonic_darwin_mono hpos (hstep n) (hbound (n + 1)))
  · intro u hstep hbound i j hij
    induction j, hij using Nat.le_induction with
    | base => exact le_refl _
    | succ n _ ih =>
      exact le_trans ih (monotonic_tick_mono (hstep n) (hbound (n + 1)))
  · intro u hb hstep i j hij
    induction j, hij using Nat.le_induction with
    | base => exact le_refl _
    | succ n _ ih =>
      exact le_trans ih (timespecSeconds_mono (hb n).2 (hb (n + 1)).1 (hstep n))

/-- Witness for `c7_conversions_monotone`: two successive tick counts
1000 and 2000 convert to non-decreasing readings. -/
theorem c7_conversions_monotone_witness :
    monotonic_tick 1000 ≤ monotonic_tick 2000 :=
  c7_conversions_monotone.2.1 1000 2000 (by norm_num) (by norm_num)

/-- C9 counterexample: the claim says every call reads only immutable
resolved state, with no shared mutable resource.  On the POSIX path a
successful call writes the fresh reading into the module-level shared
buffer `ts` (line 122): calling with the buffer at `(0, 0)` and a new
native reading `(1, 2)` leaves the shared buffer changed. -/
theorem c9_shared_ts_counterexample :
    (monotonicPosixCall (fun _ => "") ⟨1, 2⟩ 0 0 ⟨0, 0⟩).2 ≠ (⟨0, 0⟩ : timespec) := by
  decide

/-- C9 amended: the darwin and tick-count paths read only immutable
resolved state, but the POSIX path keeps one shared mutable `timespec`
buffer: every successful call overwrites the buffer with the new
reading and returns the value read back from that buffer, so an
interleaved call's write changes what another call reads back (the
calls race without locking). -/
theorem c9_shared_ts_amended :
    (∀ (strerror : Int → String) (newTs : timespec) (errno : Int) (st : timespec),
      monotonicPosixCall strerror newTs 0 errno st = (.ok (timespecSeconds newTs), newTs)) ∧
    timespecSeconds ((clock_gettime_step ⟨7, 0⟩ 0
        ((clock_gettime_step ⟨3, 0⟩ 0 ⟨0, 0⟩).2)).2) ≠
      timespecSeconds ((clock_gettime_step ⟨3, 0⟩ 0 ⟨0, 0⟩).2) := by
  constructor
  · intro strerror newTs errno st
    simp [monotonicPosixCall, clock_gettime_step]
  · norm_num [clock_gettime_step, timespecSeconds]

/-- Witness for `c9_shared_ts_amended`: a successful call with a fresh
reading of 5 seconds leaves the shared buffer holding that reading. -/
theorem c9_shared_ts_amended_witness :
    monotonicPosixCall (fun _ => "") ⟨5, 0⟩ 0 0 ⟨0, 0⟩ =
      (.ok (timespecSeconds ⟨5, 0⟩), ⟨5, 0⟩) :=
  c9_shared_ts_amended.1 (fun _ => "") ⟨5, 0⟩ 0 ⟨0, 0⟩

/-- An exception anywhere in the try block makes initialization raise
the single fatal RuntimeError. -/
theorem init_of_error {env : Env}
    (h : ∃ e, bindAndRead env = .error e) :
    init env = .runtimeError "no suitable implementation for this system" := by
  obtain ⟨e, he⟩ := h
  simp [init, he]

/-- A cons-level unfolding of `List.isPrefixOf`. -/
theorem isPrefixOf_cons_eq (a b : Char) (as bs : List Char) :
    (a :: as).isPrefixOf (b :: bs) = (a == b && as.isPrefixOf bs) := rfl

/-- A string that starts with a nonempty prefix starts with that
prefix's first character. -/
theorem startsWithB_head {s pre : String} (c : Char) (cs : List Char)
    (hpre : pre.data = c :: cs) (h : startsWithB s pre = true) :
    ∃ ds, s.data = c :: ds := by
  unfold startsWithB at h
  rw [hpre] at h
  cases hd : s.data with
  | nil =>
    rw [hd] at h
    exact absurd h (by simp [List.isPrefixOf])
  | cons d ds =>
    rw [hd] at h
    rw [isPrefixOf_cons_eq] at h
    simp only [Bool.and_eq_true] at h
    have h3 : c = d := eq_of_beq h.1
    exact ⟨ds, by rw [h3]⟩

/-- A platform string that passes the Linux prefix test matches none of
the platform branches tried before it. -/
theorem linux_excludes_prior {s : String}
    (h : startsWithB s "linux" = true) :
    s ≠ "darwin" ∧ startsWithB s "win32" = false ∧
      startsWithB s "cygwin" = false := by
  obtain ⟨ds, hds⟩ := startsWithB_head 'l' ['i', 'n', 'u', 'x'] rfl h
  refine ⟨?_, ?_, ?_⟩
  · intro heq
    rw [heq] at hds
    have h2 : ('d' :: ['a', 'r', 'w', 'i', 'n'] : List Char) = 'l' :: ds := hds
    injection h2 with hhead _
    exact absurd hhead (by decide)
  · unfold startsWithB
    rw [hds]
    have h2 : ("win32".data : List Char) = 'w' :: ['i', 'n', '3', '2'] := rfl
    rw [h2, isPrefixOf_cons_eq]
    have hne : (('w' : Char) == 'l') = false := by decide
    rw [hne, Bool.false_and]
  · unfold startsWithB
    rw [hds]
    have h2 : ("cygwin".data : List Char) = 'c' :: ['y', 'g', 'w', 'i', 'n'] := rfl
    rw [h2, isPrefixOf_cons_eq]
    have hne : (('c' : Char) == 'l') = false := by decide
    rw [hne, Bool.false_and]

/-- C6: every initialization-time failure collapses into the one fatal
`RuntimeError('no suitable implementation for this system')`:
initialization either binds a clock or raises exactly that error (no
silent default); an OS identifier matching no known platform path
fails that way, as does a failed library load or symbol lookup on
whichever path was taken, and a bound clock whose two sanity readings
decrease. -/
theorem c6_init_single_fatal_error :
    (∀ env : Env, (∃ c, init env = .ok c) ∨
      init env = .runtimeError "no suitable implementation for this system") ∧
    (∀ env : Env, env.sys_platform ≠ "darwin" →
      startsWithB env.sys_platform "win32" = false →
      startsWithB env.sys_platform "cygwin" = false →
      startsWithB env.sys_platform "linux" = false →
      startsWithB env.sys_platform "freebsd" = false →
      startsWithB env.sys_platform "sunos5" = false →
      strContains env.sys_platform "bsd" = false →
      init env = .runtimeError "no suitable implementation for this system") ∧
    (∀ env : Env, env.load_ok = false →
      init env = .runtimeError "no suitable implementation for this system") ∧
    (∀ (env : Env) (c : ClockKind) (r1 r2 : ℚ),
      bindAndRead env = .ok (c, r1, r2) → r2 < r1 →
      init env = .runtimeError "no suitable implementation for this system") := by
  refine ⟨?_, ?_, ?_, ?_⟩
  · intro env
    rcases h : bindAndRead env with e | ⟨c, r1, r2⟩
    · right
      exact init_of_error ⟨e, h⟩
    · by_cases hs : sanityFails r1 r2
      · right
        simp [init, h, hs]
      · left
        exact ⟨c, by simp [init, h, hs]⟩
  · intro env h1 h2 h3 h4 h5 h6 h7
    cases hl : env.load_ok with
    | false =>
      exact init_of_error ⟨"BindingFailure", by simp [bindAndRead, h1, h2, h3, hl]⟩
    | true =>
      exact init_of_error
        ⟨"NameError", by simp [bindAndRead, h1, h2, h3, h4, h5, h6, h7, hl]⟩
  · intro env hl
    by_cases h1 : env.sys_platform = "darwin"
    · exact init_of_error ⟨"BindingFailure", by simp [bindAndRead, h1, hl]⟩
    by_cases h2 : startsWithB env.sys_platform "win32" = true
    · exact init_of_error ⟨"BindingFailure", by simp [bindAndRead, h1, h2, hl]⟩
    by_cases h3 : startsWithB env.sys_platform "cygwin" = true
    · exact init_of_error ⟨"BindingFailure", by simp [bindAndRead, h1, h2, h3, hl]⟩
    · exact init_of_error ⟨"BindingFailure", by simp [bindAndRead, h1, h2, h3, hl]⟩
  · intro env c r1 r2 hb hlt
    have hs : sanityFails r1 r2 = true := by
      simp [sanityFails, sub_pos]
      exact hlt
    simp [init, hb, hs]

/-- Witness for `c6_init_single_fatal_error`: a host reporting the
unknown platform "plan9" fails initialization with the fatal error. -/
theorem c6_init_single_fatal_error_witness :
    init ⟨"plan9", "1.0", true, 1, 1, 0, 0, 0, 0, ⟨0, 0⟩, ⟨0, 0⟩⟩ =
      .runtimeError "no suitable implementation for this system" :=
  c6_init_single_fatal_error.2.1 _ (by decide) (by decide) (by decide)
    (by decide) (by decide) (by decide) (by decide)

/-- C10: `get_os_release` is partial.  For a release string whose first
character is a digit or a dot it returns the maximal leading run of
digits and dots (every character of the returned token is in the
class, the token is nonempty, it is a prefix of the release, and the
first character after it, if any, is outside the class); for a release
string that does not begin with a digit or dot the regex match is
`None` and the call raises; on the Linux path that failure aborts the
whole initialization with the fatal RuntimeError even when the POSIX
clock itself loads and reads fine. -/
theorem c10_get_os_release_partial :
    (∀ c cs, isVerChar c = true →
      get_os_release ⟨c :: cs⟩ = some ⟨(c :: cs).takeWhile isVerChar⟩ ∧
      (c :: cs).takeWhile isVerChar ≠ [] ∧
      (∀ d ∈ (c :: cs).takeWhile isVerChar, isVerChar d = true) ∧
      (c :: cs).takeWhile isVerChar ++ (c :: cs).dropWhile isVerChar = c :: cs ∧
      (∀ d ds, (c :: cs).dropWhile isVerChar = d :: ds → isVerChar d = false)) ∧
    (∀ c cs, isVerChar c = false → get_os_release ⟨c :: cs⟩ = none) ∧
    get_os_release "" = none ∧
    (∀ env : Env, startsWithB env.sys_platform "linux" = true →
      get_os_release env.platform_release = none →
      env.load_ok = true → env.status1 = 0 → env.status2 = 0 →
      init env = .runtimeError "no suitable implementation for this system") := by
  refine ⟨?_, ?_, by decide, ?_⟩
  · intro c cs hc
    have htw : (c :: cs).takeWhile isVerChar = c :: cs.takeWhile isVerChar :=
      List.takeWhile_cons_of_pos hc
    refine ⟨?_, ?_, ?_, ?_, ?_⟩
    · simp [get_os_release, htw]
    · simp [htw]
    · intro d hd
      exact List.mem_takeWhile_imp hd
    · exact List.takeWhile_append_dropWhile isVerChar (c :: cs)
    · intro d ds hdd
      have h5 : (List.dropWhile isVerChar (c :: cs)).head? = some d := by
        rw [hdd]
        rfl
      have h6 := List.head?_dropWhile_not isVerChar (c :: cs)
      rw [h5] at h6
      exact h6
  · intro c cs hc
    have htw : (c :: cs).takeWhile isVerChar = [] :=
      List.takeWhile_cons_of_neg (by simp [hc])
    simp [get_os_release, htw]
  · intro env hlin hrel hload h1 h2
    obtain ⟨hndar, hnwin, hncyg⟩ := linux_excludes_prior hlin
    refine init_of_error ⟨"VersionGateFailure", ?_⟩
    simp [bindAndRead, hndar, hnwin, hncyg, hload, hlin, linuxClockId, hrel]

/-- Witness for `c10_get_os_release_partial`: on platform "linux2" with
release "generic" (no leading digit or dot) and a perfectly working
clock, initialization still fails with the fatal error. -/
theorem c10_get_os_release_partial_witness :
    init ⟨"linux2", "generic", true, 1, 1, 0, 0, 0, 0, ⟨0, 0⟩, ⟨0, 0⟩⟩ =
      .runtimeError "no suitable implementation for this system" :=
  c10_get_os_release_partial.2.2.2 _ (by decide) (by decide) rfl rfl rfl
